import Mathlib

/-! dlib-sandbox: face-pose-example.cpp and face-detection-example.cpp

A shallow embedding of the two example programs.  External collaborators
(the camera, the face detector, the landmark model, the renderer, the clock)
are explicit inputs; every visible action of a program is recorded in a trace
of effects.  Machine integers are mathematical integers with explicit
wrap-around where the C++ type is bounded.
-/

namespace FacePose

/-! ## Machine integers -/

/-- Two's-complement reduction of an integer to the range of a 32-bit `int`. -/
def wrap32 (z : Int) : Int := (z + 2147483648) % 4294967296 - 2147483648

/-- Two's-complement reduction of an integer to the range of a 64-bit `long`. -/
def wrap64 (z : Int) : Int :=
  (z + 9223372036854775808) % 18446744073709551616 - 9223372036854775808

/-- Membership in the range of a 32-bit `int`. -/
def inInt32 (z : Int) : Prop := -2147483648 ≤ z ∧ z ≤ 2147483647

instance (z : Int) : Decidable (inInt32 z) := by
  unfold inInt32; infer_instance

/-! ## Geometry of the two libraries -/

/-- The type `cv::Point` (`cv::Point2i`): two `int` coordinates. -/
structure cvPoint where
  x : Int
  y : Int
  deriving DecidableEq, Repr

/-- The type `cv::Rect`: origin, width and height, all `int`; the bottom-right
corner `(x + width, y + height)` is exclusive. -/
structure cvRect where
  x : Int
  y : Int
  width : Int
  height : Int
  deriving DecidableEq, Repr

/-- The type `dlib::point`: two `long` coordinates. -/
structure point where
  x : Int
  y : Int
  deriving DecidableEq, Repr

/-- The type `dlib::rectangle`: `long` coordinates, right and bottom inclusive. -/
structure rectangle where
  left : Int
  top : Int
  right : Int
  bottom : Int
  deriving DecidableEq, Repr

/-- Modelled from the spec: `cv::Rect::tl()` of OpenCV, absent from the
sources; the top-left corner `(x, y)`. -/
def cvRect.tl (r : cvRect) : cvPoint := ⟨r.x, r.y⟩

/-- Modelled from the spec: `cv::Rect::br()` of OpenCV, absent from the
sources; the exclusive bottom-right corner `(x + width, y + height)`, the sums
taken in `int`. -/
def cvRect.br (r : cvRect) : cvPoint := ⟨wrap32 (r.x + r.width), wrap32 (r.y + r.height)⟩

/-- Modelled from the spec: the two-point constructor `cv::Rect(pt1, pt2)` of
OpenCV, absent from the sources; it takes the minimum of the two corners as
origin and the difference of maximum and minimum as size. -/
def cvRect.ofPoints (pt1 pt2 : cvPoint) : cvRect :=
  let x := min pt1.x pt2.x
  let y := min pt1.y pt2.y
  ⟨x, y, wrap32 (max pt1.x pt2.x - x), wrap32 (max pt1.y pt2.y - y)⟩

/-- The constructor `cv::Point2i(a, b)` applied to two `long` values: each is
narrowed to `int`. -/
def Point2i (a b : Int) : cvPoint := ⟨wrap32 a, wrap32 b⟩

/-- Source: `openCVRectToDlib`.
`dlib::rectangle((long)r.tl().x, (long)r.tl().y, (long)r.br().x - 1, (long)r.br().y - 1)`. -/
def openCVRectToDlib (r : cvRect) : rectangle :=
  ⟨r.tl.x, r.tl.y, wrap64 (r.br.x - 1), wrap64 (r.br.y - 1)⟩

/-- Source: `dlibRectangleToOpenCV`.
`cv::Rect(cv::Point2i(r.left(), r.top()), cv::Point2i(r.right() + 1, r.bottom() + 1))`. -/
def dlibRectangleToOpenCV (r : rectangle) : cvRect :=
  cvRect.ofPoints (Point2i r.left r.top) (Point2i (wrap64 (r.right + 1)) (wrap64 (r.bottom + 1)))

/-! ## Landmarks and the polyline drawing -/

/-- The type `dlib::full_object_detection`: a face box and its landmark points. -/
structure full_object_detection where
  rect : rectangle
  parts : List point
  deriving DecidableEq, Repr

/-- Modelled from the spec: `full_object_detection::part(idx)` of dlib, absent
from the sources; the landmark point with index `idx`.  The argument is an
`unsigned long`, so a negative `int` denotes an index beyond every stored
point; an index beyond the stored points has no defined result. -/
def full_object_detection.part (d : full_object_detection) (idx : Int) : Option point :=
  if 0 ≤ idx then d.parts[idx.toNat]? else none

/-- An image buffer (`cv::Mat`), identified by a number. -/
structure Mat where
  id : Nat
  deriving DecidableEq, Repr

/-- A colour (`cv::Scalar`) as blue, green, red. -/
structure Scalar where
  b : Nat
  g : Nat
  r : Nat
  deriving DecidableEq, Repr

/-- The visible actions of the live overlay program, in program order. -/
inductive Effect where
  /-- Text written to standard output (`printf`, `cout`). -/
  | print (text : String)
  /-- A call `detector(img)`. -/
  | detector (img : Mat)
  /-- A call `pose_model(img, box)`. -/
  | pose_model (img : Mat) (box : rectangle)
  /-- A call `cv::rectangle(img, r, color)`. -/
  | rectangle (r : cvRect) (color : Scalar)
  /-- A call `cv::polylines(img, points, isClosed, color, thickness, lineType)`. -/
  | polylines (points : List cvPoint) (isClosed : Bool) (color : Scalar)
      (thickness : Nat) (lineType : Nat)
  /-- A call `cv::putText` of the text `fps << " fps"` at `(50, 50)`. -/
  | putText (fps : ℚ)
  /-- A call `cv::namedWindow("Facial Landmarks", cv::WINDOW_AUTOSIZE)`. -/
  | namedWindow
  /-- A call `cv::imshow("Facial Landmarks", img)`. -/
  | imshow (img : Mat)
  deriving DecidableEq, Repr

/-- The point `cv::Point(p.x(), p.y())` built from a dlib point. -/
def toCvPoint (p : point) : cvPoint := Point2i p.x p.y

/-- Source: the `for` loop of `draw_polyline`,
`for (int i = start; i <= end; ++i) points.push_back(cv::Point(d.part(i).x(), d.part(i).y()))`.
The first argument bounds the number of iterations; the result is `none` when
it is used up with `i <= end` still true, or when `part` has no defined result. -/
def draw_polyline_loop (d : full_object_detection) (end_ : Int) :
    Nat → Int → List cvPoint → Option (List cvPoint)
  | 0, i, points => if i ≤ end_ then none else some points
  | fuel + 1, i, points =>
    if i ≤ end_ then
      match d.part i with
      | some p => draw_polyline_loop d end_ fuel (wrap32 (i + 1)) (points ++ [toCvPoint p])
      | none => none
    else some points

/-- Source: `draw_polyline(img, d, start, end, isClosed)`.  Collects the points
`part(start) .. part(end)` and hands them to `cv::polylines` with colour
`(0, 255, 0)`, thickness 1 and line type 16. -/
def draw_polyline (d : full_object_detection) (start end_ : Int) (isClosed : Bool) :
    Option Effect :=
  match draw_polyline_loop d end_ (end_ + 1 - start).toNat start [] with
  | some points => some (Effect.polylines points isClosed ⟨0, 255, 0⟩ 1 16)
  | none => none

/-- Source: the nine `draw_polyline` calls of the drawing loop (lines 158-166),
as `(start, end, isClosed)` in program order: jaw line, left eyebrow, right
eyebrow, nose bridge, lower nose, left eye, right eye, outer lip, inner lip.
The first four calls leave `isClosed` at its default `false`. -/
def polyline_calls : List (Int × Int × Bool) :=
  [(0, 16, false), (17, 21, false), (22, 26, false), (27, 30, false), (30, 35, true),
   (36, 41, true), (42, 47, true), (48, 59, true), (60, 67, true)]

/-- Runs the calls of a list of `draw_polyline` arguments in order. -/
def draw_polylines (d : full_object_detection) : List (Int × Int × Bool) → Option (List Effect)
  | [] => some []
  | (start, end_, isClosed) :: rest =>
    match draw_polyline d start end_ isClosed with
    | some e =>
      match draw_polylines d rest with
      | some es => some (e :: es)
      | none => none
    | none => none

/-- Source: the body of the drawing loop for one face: the red box
`cv::rectangle(video_sample_small, dlibRectangleToOpenCV(faces[i]), (0, 0, 255))`
followed by the nine polylines of `shapes[i]`. -/
def draw_face (face : rectangle) (shape : full_object_detection) : Option (List Effect) :=
  match draw_polylines shape polyline_calls with
  | some es => some (Effect.rectangle (dlibRectangleToOpenCV face) ⟨0, 0, 255⟩ :: es)
  | none => none

/-- Source: the drawing loop `for (int i = 0; i < faces.size(); i++)` over the
boxes and their shapes (`shapes[i]` belongs to `faces[i]`). -/
def draw_faces : List rectangle → List full_object_detection → Option (List Effect)
  | face :: faces, shape :: shapes =>
    match draw_face face shape with
    | some es =>
      match draw_faces faces shapes with
      | some rest => some (es ++ rest)
      | none => none
    | none => none
  | _, _ => some []

/-- The landmark points with indices `start, start + 1, .., end_` of a shape, in
increasing index order, each as the `cv::Point` the renderer receives. -/
def part_range (d : full_object_detection) (start end_ : Nat) : List cvPoint :=
  ((d.parts.drop start).take (end_ + 1 - start)).map toCvPoint

/-- The landmark ranges of `polyline_calls` that contain the index `i`. -/
def ranges_containing (i : Int) : List (Int × Int × Bool) :=
  polyline_calls.filter (fun c => decide (c.1 ≤ i ∧ i ≤ c.2.1))

/-! ## The frame loop -/

/-- The constant `image_detection_ratio`. -/
def image_detection_ratio : Nat := 2

/-- The constant `image_downsample_ratio`. -/
def image_downsample_ratio : Nat := 2

/-- The class of a thrown exception as the two `catch` clauses of `main`
distinguish it: `dlib::serialization_error`, or any other `std::exception`. -/
inductive FailureKind where
  | serialization_error
  | exception
  deriving DecidableEq, Repr

/-- A thrown exception: its class and its message `e.what()`. -/
structure Failure where
  kind : FailureKind
  what : String
  deriving DecidableEq, Repr

/-- The type `dlib::shape_predictor` as a function from an image and a face box
to the landmarks of that face. -/
abbrev shape_predictor := Mat → rectangle → full_object_detection

/-- The collaborators of the frame loop: the face detector, the landmark model
and `cv::resize` (which can throw). -/
structure Collaborators where
  detector : Mat → List rectangle
  pose_model : shape_predictor
  resize : Mat → Except Failure Mat

/-- The variables that live across iterations of the frame loop: the `static`
locals `iteration_count` (`uint8_t`), `faces`, `fps` (kept as an exact
rational), `fps_count` (`unsigned int`) and the local `start` (`time_t`). -/
structure LoopState where
  iteration_count : Nat
  faces : List rectangle
  fps : ℚ
  fps_count : Nat
  start : Int
  deriving DecidableEq, Repr

/-- What one iteration receives from outside: the key returned by
`cv::waitKey(10)`, the outcome of `video_feed.read` (`none` when the read
fails) and the clock value stored by `time(&end)`. -/
structure Tick where
  key : Int
  frame : Option Mat
  now : Int
  deriving DecidableEq, Repr

/-- The function `difftime(end, start)`: the difference in seconds. -/
def difftime (end_ start : Int) : ℚ := ((end_ - start : Int) : ℚ)

/-- Source: the FPS accumulator (lines 172-188).
`if (difftime(end, start) >= 1) { fps = fps_count/difftime(end, start); fps_count = 0; start = end; } else { fps_count++; }` -/
def fps_step (s : LoopState) (end_ : Int) : LoopState :=
  if 1 ≤ difftime end_ s.start then
    { s with fps := (s.fps_count : ℚ) / difftime end_ s.start, fps_count := 0, start := end_ }
  else
    { s with fps_count := (s.fps_count + 1) % 4294967296 }

/-- The outcome of one pass through the loop head and body. -/
inductive StepResult where
  /-- The loop is left: the key was 27 or the frame read failed. -/
  | exit
  /-- An exception left the body. -/
  | throw (e : Failure)
  /-- The body indexed a landmark that does not exist. -/
  | undefined
  /-- The body ran to its end, with the new state and the effects it produced. -/
  | next (s : LoopState) (effects : List Effect)
  deriving DecidableEq, Repr

/-- Source: one iteration of `while (cv::waitKey(10) != 27) { ... }` (lines 99-208). -/
def loop_iteration (c : Collaborators) (s : LoopState) (t : Tick) : StepResult :=
  if t.key = 27 then StepResult.exit else
  match t.frame with
  | none => StepResult.exit
  | some video_sample =>
    match c.resize video_sample with
    | Except.error e => StepResult.throw e
    | Except.ok video_sample_small =>
      -- if (iteration_count++ % image_detection_ratio == 0) faces = detector(...)
      let detect : Bool := s.iteration_count % image_detection_ratio == 0
      let iteration_count := (s.iteration_count + 1) % 256
      let faces := if detect then c.detector video_sample_small else s.faces
      let detection := if detect then [Effect.detector video_sample_small] else []
      -- shapes.push_back(pose_model(d_video_sample_small, faces[i]))
      let shapes := faces.map (c.pose_model video_sample_small)
      let prediction := faces.map (Effect.pose_model video_sample_small)
      match draw_faces faces shapes with
      | none => StepResult.undefined
      | some drawing =>
        let s1 := fps_step { s with iteration_count := iteration_count, faces := faces } t.now
        StepResult.next s1
          (detection ++ prediction ++ drawing ++
            [Effect.putText s1.fps, Effect.namedWindow, Effect.imshow video_sample_small])

/-- The state in which the first iteration starts: the `static` locals at their
initialisers and `start` as `time(&start)` set it before the loop. -/
def initial_state (start : Int) : LoopState :=
  { iteration_count := 0, faces := [], fps := 0, fps_count := 0, start := start }

/-- How the frame loop ended on a finite sequence of ticks. -/
inductive LoopEnd where
  /-- The loop was left normally. -/
  | finished
  /-- An exception left the loop. -/
  | thrown (e : Failure)
  /-- Undefined behaviour was reached. -/
  | undefined
  /-- The ticks are used up and the loop is still running. -/
  | running
  deriving DecidableEq, Repr

/-- Source: the `while` loop, run over a finite sequence of ticks. -/
def frame_loop (c : Collaborators) : LoopState → List Tick → List Effect × LoopEnd
  | _, [] => ([], LoopEnd.running)
  | s, t :: ts =>
    match loop_iteration c s t with
    | StepResult.exit => ([], LoopEnd.finished)
    | StepResult.throw e => ([], LoopEnd.thrown e)
    | StepResult.undefined => ([], LoopEnd.undefined)
    | StepResult.next s1 effects =>
      let rest := frame_loop c s1 ts
      (effects ++ rest.1, rest.2)

/-- The state before iteration `n` of a run from state `s` over a stream of
ticks; `none` when the run does not reach iteration `n`. -/
def state_before (c : Collaborators) (s : LoopState) (ticks : Nat → Tick) : Nat → Option LoopState
  | 0 => some s
  | n + 1 =>
    match state_before c s ticks n with
    | some s0 =>
      match loop_iteration c s0 (ticks n) with
      | StepResult.next s1 _ => some s1
      | _ => none
    | none => none

/-- Iteration `n` of a run from state `s` over a stream of ticks; `none` when
the run does not reach iteration `n`. -/
def iteration (c : Collaborators) (s : LoopState) (ticks : Nat → Tick) (n : Nat) :
    Option StepResult :=
  match state_before c s ticks n with
  | some s0 => some (loop_iteration c s0 (ticks n))
  | none => none

/-- The images on which a trace calls the detector, in order. -/
def detector_calls : List Effect → List Mat
  | [] => []
  | Effect.detector img :: rest => img :: detector_calls rest
  | _ :: rest => detector_calls rest

/-- The boxes a trace hands to the landmark model, in order. -/
def predicted_boxes : List Effect → List rectangle
  | [] => []
  | Effect.pose_model _ box :: rest => box :: predicted_boxes rest
  | _ :: rest => predicted_boxes rest

/-- The boxes a trace draws with `cv::rectangle`, in order. -/
def drawn_boxes : List Effect → List cvRect
  | [] => []
  | Effect.rectangle r _ :: rest => r :: drawn_boxes rest
  | _ :: rest => drawn_boxes rest

/-- The texts a trace writes to standard output, in order. -/
def printed : List Effect → List String
  | [] => []
  | Effect.print text :: rest => text :: printed rest
  | _ :: rest => printed rest

/-- The FPS values a trace hands to `cv::putText`, in order. -/
def displayed_fps : List Effect → List ℚ
  | [] => []
  | Effect.putText fps :: rest => fps :: displayed_fps rest
  | _ :: rest => displayed_fps rest

/-- The frame counts used as numerator of an FPS recomputation during a run
over a finite sequence of ticks, each paired with the number of iterations
executed since the accumulator was last reset (since the loop started, for the
first window), the recomputing iteration included.  `since_reset` counts the
iterations already executed in the current window. -/
def fps_windows (c : Collaborators) : LoopState → Nat → List Tick → List (Nat × Nat)
  | _, _, [] => []
  | s, since_reset, t :: ts =>
    match loop_iteration c s t with
    | StepResult.next s1 _ =>
      if 1 ≤ difftime t.now s.start then
        (s.fps_count, since_reset + 1) :: fps_windows c s1 0 ts
      else fps_windows c s1 (since_reset + 1) ts
    | _ => []

/-! ## The program -/

/-- The world the live overlay program runs in: whether the camera opened, the
file system as seen by `deserialize(name) >> pose_model`, the detector,
`cv::resize`, the clock value stored by `time(&start)` and the ticks that
drive the loop. -/
structure World where
  isOpened : Bool
  deserialize : String → Except Failure shape_predictor
  detector : Mat → List rectangle
  resize : Mat → Except Failure Mat
  start : Int
  ticks : List Tick

/-- How a run of `main` over a finite sequence of ticks ended. -/
inductive Outcome where
  /-- The function `main` returned this value. -/
  | returned (code : Int)
  /-- Undefined behaviour was reached. -/
  | undefined
  /-- The ticks are used up and the loop is still running. -/
  | running
  deriving DecidableEq, Repr

/-- Source: the body of the `try` block of `main` (lines 74-208).  The result is
the trace so far and either a thrown exception or the way the body ended. -/
def try_block (w : World) : List Effect × Except Failure Outcome :=
  if w.isOpened = false then
    ([Effect.print "Unable to connect to the camera."], Except.ok (Outcome.returned 0))
  else
    match w.deserialize "shape_predictor_68_face_landmarks.dat" with
    | Except.error e => ([], Except.error e)
    | Except.ok pose_model =>
      match frame_loop ⟨w.detector, pose_model, w.resize⟩ (initial_state w.start) w.ticks with
      | (effects, LoopEnd.finished) => (effects, Except.ok (Outcome.returned 0))
      | (effects, LoopEnd.thrown e) => (effects, Except.error e)
      | (effects, LoopEnd.undefined) => (effects, Except.ok Outcome.undefined)
      | (effects, LoopEnd.running) => (effects, Except.ok Outcome.running)

/-- The three lines of download instructions printed by the
`catch (serialization_error& e)` clause. -/
def download_instructions : List Effect :=
  [Effect.print "You need dlib's default face landmarking model file to run this example.\n",
   Effect.print "You can get it from the following URL: \n",
   Effect.print "   http://dlib.net/files/shape_predictor_68_face_landmarks.dat.bz2\n"]

/-- Source: the two `catch` clauses of `main` (lines 210-221), tried in order. -/
def catch_clauses (e : Failure) : List Effect :=
  match e.kind with
  | FailureKind.serialization_error =>
    download_instructions ++ [Effect.print ("\n" ++ e.what ++ "\n")]
  | FailureKind.exception => [Effect.print (e.what ++ "\n")]

/-- Source: `main` of face-pose-example.cpp.  Control that leaves the `try`
statement reaches the end of `main`, which returns 0. -/
def main (w : World) : List Effect × Outcome :=
  match try_block w with
  | (effects, Except.ok outcome) => (effects, outcome)
  | (effects, Except.error e) => (effects ++ catch_clauses e, Outcome.returned 0)

end FacePose

namespace FaceDetection

/-! ## face-detection-example.cpp -/

/-- An image (`array2d`), identified by a number. -/
structure Image where
  id : Nat
  deriving DecidableEq, Repr

/-- The type `dlib::rectangle` as the detector returns it. -/
structure rectangle where
  left : Int
  top : Int
  right : Int
  bottom : Int
  deriving DecidableEq, Repr

/-- A box in the coordinates of the original image, with exact coordinates. -/
structure scaled_rectangle where
  left : ℚ
  top : ℚ
  right : ℚ
  bottom : ℚ
  deriving DecidableEq, Repr

/-- The upsample factor of `pyramid_up` with `pyramid_down<2>`. -/
def upsample_factor : ℚ := 2

/-- Modelled from the spec: `pyramid_down<2>::rect_down` of dlib, absent from
the sources.  The spec says that detected boxes "are then divided by the same
upsample factor" (an exact rectangle-scaling law on both corners), so every
coordinate is divided by the factor, exactly. -/
def rect_down (r : rectangle) : scaled_rectangle :=
  ⟨r.left / upsample_factor, r.top / upsample_factor,
   r.right / upsample_factor, r.bottom / upsample_factor⟩

/-- A colour `rgb_pixel(red, green, blue)`. -/
structure rgb_pixel where
  red : Nat
  green : Nat
  blue : Nat
  deriving DecidableEq, Repr

/-- The visible actions of the image batch annotator, in program order. -/
inductive Effect where
  /-- Text written to `cout`. -/
  | cout (text : String)
  /-- The window `image_window win` is created. -/
  | image_window
  /-- The detector is built by `get_frontal_face_detector()`. -/
  | get_frontal_face_detector
  /-- A call `load_image(image, path)`. -/
  | load_image (path : String)
  /-- A call `detector(img)`. -/
  | detector (img : Image)
  /-- A call `draw_rectangle(img, rect, color, thickness)`. -/
  | draw_rectangle (img : Image) (rect : scaled_rectangle) (color : rgb_pixel) (thickness : Nat)
  /-- The calls `resize_image(image, sizeImg)` and `assign_image(image, sizeImg)`. -/
  | resize_image (img : Image)
  /-- A call `win.clear_overlay()`. -/
  | clear_overlay
  /-- A call `win.set_image(image)`. -/
  | set_image (img : Image)
  /-- A call `cin.get()`. -/
  | cin_get
  deriving DecidableEq, Repr

/-- The collaborators of the annotator: the loader (which throws with a message
when it fails), the grey-scale copy made by `assign_image`, `pyramid_up` and
the face detector. -/
structure World where
  load_image : String → Except String Image
  assign_image : Image → Image
  pyramid_up : Image → Image
  detector : Image → List rectangle

/-- Source: the loop `for (int j = 0; j < dets.size(); j++)` (lines 88-94):
`dets[j] = pyr.rect_down(dets[j]); draw_rectangle(image, dets[j], rgb_pixel(255, 0, 0), 2);` -/
def draw_detections (image : Image) : List rectangle → List Effect
  | [] => []
  | det :: dets =>
    Effect.draw_rectangle image (rect_down det) ⟨255, 0, 0⟩ 2 :: draw_detections image dets

/-- Source: the body of the loop over the command-line arguments (lines 55-108)
for one path.  The result is the trace and the message of the exception that
left the body, if any. -/
def process_image (w : World) (path : String) : List Effect × Option String :=
  match w.load_image path with
  | Except.error what =>
    ([Effect.cout ("Processing image: " ++ path ++ "\n"), Effect.load_image path], some what)
  | Except.ok image =>
    let grayscale_image := w.pyramid_up (w.assign_image image)
    let dets := w.detector grayscale_image
    ([Effect.cout ("Processing image: " ++ path ++ "\n"), Effect.load_image path,
      Effect.detector grayscale_image,
      Effect.cout ("Found " ++ toString dets.length ++ " faces.\n")]
      ++ draw_detections image dets ++
      [Effect.resize_image image, Effect.clear_overlay, Effect.set_image image,
       Effect.cout "Hit enter to process the next image...", Effect.cin_get], none)

/-- Source: the loop `for (int i = 1; i < argc; ++i)` over the paths. -/
def process_images (w : World) : List String → List Effect × Option String
  | [] => ([], none)
  | path :: paths =>
    match process_image w path with
    | (effects, some what) => (effects, some what)
    | (effects, none) =>
      let rest := process_images w paths
      (effects ++ rest.1, rest.2)

/-- Source: `main(argc, argv)` of face-detection-example.cpp, with `argv` the
argument list (program name first) and `argc` its length.  The result is the
trace and the exit code. -/
def main (w : World) (argv : List String) : List Effect × Int :=
  if argv.length = 1 then
    ([Effect.cout "Provide image paths as command line arguments to this program.\n"], 0)
  else
    match process_images w (argv.drop 1) with
    | (effects, none) =>
      (Effect.image_window :: Effect.get_frontal_face_detector :: effects, 0)
    | (effects, some what) =>
      (Effect.image_window :: Effect.get_frontal_face_detector :: effects ++
        [Effect.cout "\nexception thrown!\n", Effect.cout (what ++ "\n")], 0)

/-- The boxes a trace draws, each with the image it is drawn on, in order. -/
def drawn_rectangles : List Effect → List (Image × scaled_rectangle)
  | [] => []
  | Effect.draw_rectangle img rect _ _ :: rest => (img, rect) :: drawn_rectangles rest
  | _ :: rest => drawn_rectangles rest

/-- The images on which a trace calls the detector, in order. -/
def detector_calls : List Effect → List Image
  | [] => []
  | Effect.detector img :: rest => img :: detector_calls rest
  | _ :: rest => detector_calls rest

end FaceDetection

namespace FacePose

/-! ## A concrete run -/

/-- A landmark model for examples: 68 points on a line starting at the top-left
corner of the box. -/
def example_pose_model : shape_predictor :=
  fun _ box => ⟨box, (List.range 68).map (fun i => ⟨box.left + i, box.top + 2 * i⟩)⟩

/-- Collaborators for examples: the detector finds one box whose position
depends on the image, the resize never throws. -/
def example_collaborators : Collaborators :=
  { detector := fun img => [⟨img.id, 0, img.id + 10, 10⟩],
    pose_model := example_pose_model,
    resize := fun img => Except.ok ⟨img.id + 100⟩ }

/-- Ticks for examples: no key is pressed, every read succeeds with frame `n`,
and the clock advances by one second every three iterations. -/
def example_ticks (n : Nat) : Tick := ⟨-1, some ⟨n⟩, n / 3⟩

/-- Ticks for examples: no key is pressed, every read succeeds with frame `n`,
and the clock stands still. -/
def steady_ticks (n : Nat) : Tick := ⟨-1, some ⟨n⟩, 0⟩

/-- The points `count` landmarks from index `first` of `example_pose_model`
give for a box, as the renderer receives them. -/
def example_points (box : rectangle) (first count : Nat) : List cvPoint :=
  (List.range' first count).map (fun i => ⟨box.left + i, box.top + 2 * i⟩)

/-- The drawing of one box with the landmarks of `example_pose_model`, written out. -/
def example_drawing (box : rectangle) : List Effect :=
  [Effect.rectangle ⟨box.left, box.top, box.right + 1 - box.left, box.bottom + 1 - box.top⟩
     ⟨0, 0, 255⟩,
   Effect.polylines (example_points box 0 17) false ⟨0, 255, 0⟩ 1 16,
   Effect.polylines (example_points box 17 5) false ⟨0, 255, 0⟩ 1 16,
   Effect.polylines (example_points box 22 5) false ⟨0, 255, 0⟩ 1 16,
   Effect.polylines (example_points box 27 4) false ⟨0, 255, 0⟩ 1 16,
   Effect.polylines (example_points box 30 6) true ⟨0, 255, 0⟩ 1 16,
   Effect.polylines (example_points box 36 6) true ⟨0, 255, 0⟩ 1 16,
   Effect.polylines (example_points box 42 6) true ⟨0, 255, 0⟩ 1 16,
   Effect.polylines (example_points box 48 12) true ⟨0, 255, 0⟩ 1 16,
   Effect.polylines (example_points box 60 8) true ⟨0, 255, 0⟩ 1 16]

/-- Five ticks for examples: frames arrive at the clock values 0, 0, 1, 1, 2. -/
def two_window_ticks : List Tick :=
  [⟨-1, some ⟨0⟩, 0⟩, ⟨-1, some ⟨1⟩, 0⟩, ⟨-1, some ⟨2⟩, 1⟩, ⟨-1, some ⟨3⟩, 1⟩, ⟨-1, some ⟨4⟩, 2⟩]

/-- Three ticks for examples: one frame arrives every second, at the clock values
1, 2, 3. -/
def one_per_second : List Tick :=
  [⟨-1, some ⟨0⟩, 1⟩, ⟨-1, some ⟨1⟩, 2⟩, ⟨-1, some ⟨2⟩, 3⟩]

/-- A world for examples in which the camera opens and the landmark-model file
is missing: loading it raises a serialization error. -/
def missing_model_world : World :=
  { isOpened := true,
    deserialize := fun name =>
      Except.error ⟨FailureKind.serialization_error, "Unable to open " ++ name ++ " for reading."⟩,
    detector := example_collaborators.detector,
    resize := example_collaborators.resize,
    start := 0,
    ticks := [⟨-1, some ⟨0⟩, 0⟩] }

/-- A world for examples in which the model loads and `cv::resize` throws an
ordinary exception on the second frame. -/
def failing_resize_world : World :=
  { isOpened := true,
    deserialize := fun _ => Except.ok example_pose_model,
    detector := fun _ => [],
    resize := fun img =>
      if img.id = 1 then Except.error ⟨FailureKind.exception, "resize: empty input"⟩
      else Except.ok ⟨img.id + 100⟩,
    start := 0,
    ticks := [⟨-1, some ⟨0⟩, 0⟩, ⟨-1, some ⟨1⟩, 0⟩, ⟨-1, some ⟨2⟩, 0⟩] }

end FacePose

namespace FaceDetection

/-- A world for examples: every path but one loads, and the detector finds two
boxes. -/
def example_world : World :=
  { load_image := fun path =>
      if path = "missing.jpg" then Except.error "Unable to open file"
      else Except.ok ⟨path.length⟩,
    assign_image := fun img => ⟨img.id + 1000⟩,
    pyramid_up := fun img => ⟨img.id + 2000⟩,
    detector := fun img => [⟨10, 21, 50, 61⟩, ⟨img.id, 0, 7, 9⟩] }

end FaceDetection

/-! # Theorems -/

namespace FacePose

theorem wrap32_of_inInt32 {z : Int} (h : inInt32 z) : wrap32 z = z := by
  unfold inInt32 at h
  unfold wrap32
  omega

theorem wrap64_of_inInt32 {z : Int} (h : inInt32 z) : wrap64 z = z := by
  unfold inInt32 at h
  unfold wrap64
  omega

theorem wrap64_pred_of_inInt32 {z : Int} (h : inInt32 z) : wrap64 (z - 1) = z - 1 := by
  unfold inInt32 at h
  unfold wrap64
  omega

/-- C10. The two rectangle converters are mutually inverse on well-formed
rectangles whose coordinates and intermediate sums stay in 32-bit `int` range:
for an OpenCV rectangle with non-negative width and height,
`openCVRectToDlib` yields `(x, y, x+width-1, y+height-1)` and converting back
returns the rectangle; for a dlib rectangle with `right ≥ left - 1` and
`bottom ≥ top - 1`, `dlibRectangleToOpenCV` yields
`(left, top, right+1-left, bottom+1-top)` and converting back returns the
rectangle. -/
theorem rect_converters_inverse :
    (∀ r : cvRect, inInt32 r.x → inInt32 r.y → inInt32 r.width → inInt32 r.height →
        inInt32 (r.x + r.width) → inInt32 (r.y + r.height) →
        0 ≤ r.width → 0 ≤ r.height →
        openCVRectToDlib r = ⟨r.x, r.y, r.x + r.width - 1, r.y + r.height - 1⟩ ∧
        dlibRectangleToOpenCV (openCVRectToDlib r) = r) ∧
    (∀ r : rectangle, inInt32 r.left → inInt32 r.top → inInt32 r.right → inInt32 r.bottom →
        inInt32 (r.right + 1) → inInt32 (r.bottom + 1) →
        inInt32 (r.right + 1 - r.left) → inInt32 (r.bottom + 1 - r.top) →
        r.left - 1 ≤ r.right → r.top - 1 ≤ r.bottom →
        dlibRectangleToOpenCV r
          = ⟨r.left, r.top, r.right + 1 - r.left, r.bottom + 1 - r.top⟩ ∧
        openCVRectToDlib (dlibRectangleToOpenCV r) = r) := by
  constructor
  · rintro ⟨x, y, w, h⟩ hx hy hw hh hxw hyh hw0 hh0
    simp only at hx hy hw hh hxw hyh hw0 hh0
    have e1 : openCVRectToDlib ⟨x, y, w, h⟩ = ⟨x, y, x + w - 1, y + h - 1⟩ := by
      simp only [openCVRectToDlib, cvRect.tl, cvRect.br, wrap32_of_inInt32 hxw,
        wrap32_of_inInt32 hyh, wrap64_pred_of_inInt32 hxw, wrap64_pred_of_inInt32 hyh]
    refine ⟨e1, ?_⟩
    rw [e1]
    have a1 : x + w - 1 + 1 = x + w := by omega
    have a2 : y + h - 1 + 1 = y + h := by omega
    have b1 : min x (x + w) = x := by omega
    have b2 : min y (y + h) = y := by omega
    have c1 : max x (x + w) - x = w := by omega
    have c2 : max y (y + h) - y = h := by omega
    simp only [dlibRectangleToOpenCV, cvRect.ofPoints, Point2i, a1, a2,
      wrap64_of_inInt32 hxw, wrap64_of_inInt32 hyh, wrap32_of_inInt32 hxw,
      wrap32_of_inInt32 hyh, wrap32_of_inInt32 hx, wrap32_of_inInt32 hy, b1, b2, c1, c2,
      wrap32_of_inInt32 hw, wrap32_of_inInt32 hh]
  · rintro ⟨l, t, r, b⟩ hl ht hr hb hr1 hb1 hw hh hlr htb
    simp only at hl ht hr hb hr1 hb1 hw hh hlr htb
    have b1 : min l (r + 1) = l := by omega
    have b2 : min t (b + 1) = t := by omega
    have c1 : max l (r + 1) - l = r + 1 - l := by omega
    have c2 : max t (b + 1) - t = b + 1 - t := by omega
    have e1 : dlibRectangleToOpenCV ⟨l, t, r, b⟩ = ⟨l, t, r + 1 - l, b + 1 - t⟩ := by
      simp only [dlibRectangleToOpenCV, cvRect.ofPoints, Point2i,
        wrap64_of_inInt32 hr1, wrap64_of_inInt32 hb1, wrap32_of_inInt32 hr1,
        wrap32_of_inInt32 hb1, wrap32_of_inInt32 hl, wrap32_of_inInt32 ht, b1, b2, c1, c2,
        wrap32_of_inInt32 hw, wrap32_of_inInt32 hh]
    refine ⟨e1, ?_⟩
    rw [e1]
    have a1 : l + (r + 1 - l) = r + 1 := by omega
    have a2 : t + (b + 1 - t) = b + 1 := by omega
    have d1 : r + 1 - 1 = r := by omega
    have d2 : b + 1 - 1 = b := by omega
    simp only [openCVRectToDlib, cvRect.tl, cvRect.br, a1, a2, wrap32_of_inInt32 hr1,
      wrap32_of_inInt32 hb1, wrap64_of_inInt32 hr, wrap64_of_inInt32 hb, d1, d2]

end FacePose

namespace FacePose

/-- C10, instance. Both round trips at concrete rectangles: the OpenCV rectangle
`(10, 20, 30, 40)` and the dlib rectangle `(10, 20, 39, 59)` are images of each
other. -/
theorem rect_converters_inverse_witness :
    (openCVRectToDlib ⟨10, 20, 30, 40⟩ = ⟨10, 20, 10 + 30 - 1, 20 + 40 - 1⟩ ∧
      dlibRectangleToOpenCV (openCVRectToDlib ⟨10, 20, 30, 40⟩) = ⟨10, 20, 30, 40⟩) ∧
    (dlibRectangleToOpenCV ⟨10, 20, 39, 59⟩ = ⟨10, 20, 39 + 1 - 10, 59 + 1 - 20⟩ ∧
      openCVRectToDlib (dlibRectangleToOpenCV ⟨10, 20, 39, 59⟩) = ⟨10, 20, 39, 59⟩) :=
  ⟨rect_converters_inverse.1 ⟨10, 20, 30, 40⟩ (by decide) (by decide) (by decide) (by decide)
      (by decide) (by decide) (by decide) (by decide),
   rect_converters_inverse.2 ⟨10, 20, 39, 59⟩ (by decide) (by decide) (by decide) (by decide)
      (by decide) (by decide) (by decide) (by decide) (by decide) (by decide)⟩

/-! ## The landmark ranges -/

/-- C8, as stated, fails: landmark index 30 lies in two of the drawn ranges
(nose bridge 27-30 and lower nose 30-35), so not every index of 0..67 belongs
to exactly one range. -/
theorem landmark_30_in_two_ranges :
    ranges_containing 30 = [(27, 30, false), (30, 35, true)] ∧
    ¬ (∀ i : Int, 0 ≤ i → i ≤ 67 → (ranges_containing i).length = 1) := by
  refine ⟨by decide, fun h => ?_⟩
  have h30 := h 30 (by decide) (by decide)
  revert h30
  decide

/-- C8, amended. The ranges of the nine polylines cover the landmark indices
0..67: every index of 0..67 other than 30 belongs to exactly one range, index 30
belongs to exactly two (nose bridge and lower nose), and no range contains an
index outside 0..67. -/
theorem landmark_ranges_cover :
    (∀ i : Int, 0 ≤ i → i ≤ 67 → i ≠ 30 → (ranges_containing i).length = 1) ∧
    (ranges_containing 30).length = 2 ∧
    (∀ i : Int, (ranges_containing i).length ≠ 0 → 0 ≤ i ∧ i ≤ 67) := by
  refine ⟨?_, by decide, ?_⟩
  · intro i h0 h67 h30
    interval_cases i <;> first | decide | exact absurd rfl h30
  · intro i h
    by_contra hc
    apply h
    have hi : i < 0 ∨ 67 < i := by omega
    have hnil : ranges_containing i = [] := by
      unfold ranges_containing polyline_calls
      rcases hi with hi | hi
      · simp only [List.filter_eq_nil_iff, List.mem_cons, List.mem_singleton, decide_eq_true_eq]
        rintro c (rfl | rfl | rfl | rfl | rfl | rfl | rfl | rfl | rfl | hc0) <;>
          first | (simp only; omega) | simp at hc0
      · simp only [List.filter_eq_nil_iff, List.mem_cons, List.mem_singleton, decide_eq_true_eq]
        rintro c (rfl | rfl | rfl | rfl | rfl | rfl | rfl | rfl | rfl | hc0) <;>
          first | (simp only; omega) | simp at hc0
    rw [hnil]
    rfl

/-- C8, amended, instance: index 29 lies in exactly one range, and index 68, which
lies in some range only if it is within 0..67, lies in none. -/
theorem landmark_ranges_cover_witness :
    (ranges_containing 29).length = 1 ∧ (ranges_containing 68).length = 0 :=
  ⟨landmark_ranges_cover.1 29 (by decide) (by decide) (by decide), by decide⟩

end FacePose

namespace FacePose

/-! ## The FPS accumulator -/

/-- C4, as stated, fails: at `fps_count = 4294967295` (the largest `unsigned int`)
with less than one second elapsed, `fps_count++` wraps to 0 instead of increasing
the counter by 1. -/
theorem fps_count_wraps :
    difftime 7 (LoopState.mk 0 [] 0 4294967295 7).start < 1 ∧
    (fps_step (LoopState.mk 0 [] 0 4294967295 7) 7).fps_count = 0 ∧
    (fps_step (LoopState.mk 0 [] 0 4294967295 7) 7).fps_count ≠ 4294967295 + 1 := by
  refine ⟨?_, ?_, ?_⟩ <;> norm_num [fps_step, difftime]

/-- C4, amended. For every state and clock value `now`: when `now - start ≥ 1` the
step sets `fps` to the old `fps_count` divided by `now - start`, `fps_count` to 0
and `start` to `now`; when `now - start < 1` it sets `fps_count` to
`(fps_count + 1) mod 2^32`, which is `fps_count + 1` whenever
`fps_count < 2^32 - 1`, and leaves `fps` and `start` unchanged.  In both cases
`iteration_count` and `faces` are untouched. -/
theorem fps_step_spec (s : LoopState) (now : Int) :
    (1 ≤ ((now - s.start : Int) : ℚ) →
      fps_step s now =
        { s with fps := (s.fps_count : ℚ) / ((now - s.start : Int) : ℚ),
                 fps_count := 0, start := now }) ∧
    (((now - s.start : Int) : ℚ) < 1 →
      fps_step s now = { s with fps_count := (s.fps_count + 1) % 4294967296 } ∧
      (s.fps_count < 4294967295 → (fps_step s now).fps_count = s.fps_count + 1)) := by
  constructor
  · intro h
    simp only [fps_step, difftime, h, if_true]
  · intro h
    have h1 : ¬ (1 ≤ ((now - s.start : Int) : ℚ)) := not_le.mpr h
    refine ⟨by simp only [fps_step, difftime, h1, if_false], fun hlt => ?_⟩
    simp only [fps_step, difftime, h1, if_false]
    omega

/-- C4, amended, instance: from `fps_count = 30`, `start = 100`, the clock value 102
gives `fps = 30 / 2`, a zero counter and `start = 102`; the clock value 100 gives
`fps_count = 31`. -/
theorem fps_step_spec_witness :
    fps_step (LoopState.mk 4 [] 0 30 100) 102
      = { (LoopState.mk 4 [] 0 30 100) with
            fps := ((30 : Nat) : ℚ) / ((102 - 100 : Int) : ℚ), fps_count := 0, start := 102 } ∧
    (fps_step (LoopState.mk 4 [] 0 30 100) 100).fps_count = 30 + 1 :=
  ⟨(fps_step_spec (LoopState.mk 4 [] 0 30 100) 102).1 (by norm_num),
   ((fps_step_spec (LoopState.mk 4 [] 0 30 100) 100).2 (by norm_num)).2 (by decide)⟩

@[simp] theorem fps_step_iteration_count (s : LoopState) (now : Int) :
    (fps_step s now).iteration_count = s.iteration_count := by
  unfold fps_step; split <;> rfl

@[simp] theorem fps_step_faces (s : LoopState) (now : Int) :
    (fps_step s now).faces = s.faces := by
  unfold fps_step; split <;> rfl

end FacePose

namespace FacePose

/-! ## Reading a trace -/

theorem detector_calls_append (xs ys : List Effect) :
    detector_calls (xs ++ ys) = detector_calls xs ++ detector_calls ys := by
  induction xs with
  | nil => rfl
  | cons e xs ih => cases e <;> simp [detector_calls, ih]

theorem predicted_boxes_append (xs ys : List Effect) :
    predicted_boxes (xs ++ ys) = predicted_boxes xs ++ predicted_boxes ys := by
  induction xs with
  | nil => rfl
  | cons e xs ih => cases e <;> simp [predicted_boxes, ih]

theorem drawn_boxes_append (xs ys : List Effect) :
    drawn_boxes (xs ++ ys) = drawn_boxes xs ++ drawn_boxes ys := by
  induction xs with
  | nil => rfl
  | cons e xs ih => cases e <;> simp [drawn_boxes, ih]

theorem detector_calls_pose_model (img : Mat) (faces : List rectangle) :
    detector_calls (faces.map (Effect.pose_model img)) = [] := by
  induction faces with
  | nil => rfl
  | cons f fs ih => simpa [detector_calls] using ih

theorem predicted_boxes_pose_model (img : Mat) (faces : List rectangle) :
    predicted_boxes (faces.map (Effect.pose_model img)) = faces := by
  induction faces with
  | nil => rfl
  | cons f fs ih => simpa [predicted_boxes] using ih

theorem drawn_boxes_pose_model (img : Mat) (faces : List rectangle) :
    drawn_boxes (faces.map (Effect.pose_model img)) = [] := by
  induction faces with
  | nil => rfl
  | cons f fs ih => simpa [drawn_boxes] using ih

theorem draw_polyline_some {d : full_object_detection} {start end_ : Int} {isClosed : Bool}
    {e : Effect} (h : draw_polyline d start end_ isClosed = some e) :
    ∃ points, e = Effect.polylines points isClosed ⟨0, 255, 0⟩ 1 16 := by
  unfold draw_polyline at h
  split at h
  · rename_i points _
    exact ⟨points, (Option.some.inj h).symm⟩
  · exact absurd h (by simp)

theorem draw_polylines_trace (d : full_object_detection) :
    ∀ (calls : List (Int × Int × Bool)) (es : List Effect), draw_polylines d calls = some es →
      detector_calls es = [] ∧ predicted_boxes es = [] ∧ drawn_boxes es = [] := by
  intro calls
  induction calls with
  | nil =>
    intro es h
    simp only [draw_polylines, Option.some.injEq] at h
    subst h
    exact ⟨rfl, rfl, rfl⟩
  | cons c rest ih =>
    intro es h
    obtain ⟨start, end_, isClosed⟩ := c
    simp only [draw_polylines] at h
    split at h
    · rename_i e he
      split at h
      · rename_i es1 hes1
        obtain ⟨points, rfl⟩ := draw_polyline_some he
        have := ih es1 hes1
        simp only [Option.some.injEq] at h
        subst h
        simpa [detector_calls, predicted_boxes, drawn_boxes] using this
      · exact absurd h (by simp)
    · exact absurd h (by simp)

theorem draw_face_trace {face : rectangle} {shape : full_object_detection} {es : List Effect}
    (h : draw_face face shape = some es) :
    detector_calls es = [] ∧ predicted_boxes es = [] ∧
      drawn_boxes es = [dlibRectangleToOpenCV face] := by
  unfold draw_face at h
  split at h
  · rename_i ps hps
    have := draw_polylines_trace shape _ ps hps
    simp only [Option.some.injEq] at h
    subst h
    simpa [detector_calls, predicted_boxes, drawn_boxes] using this
  · exact absurd h (by simp)

theorem draw_faces_trace :
    ∀ (faces : List rectangle) (shapes : List full_object_detection) (es : List Effect),
      shapes.length = faces.length → draw_faces faces shapes = some es →
      detector_calls es = [] ∧ predicted_boxes es = [] ∧
        drawn_boxes es = faces.map dlibRectangleToOpenCV := by
  intro faces
  induction faces with
  | nil =>
    intro shapes es _ h
    cases shapes <;> simp only [draw_faces, Option.some.injEq] at h <;> subst h <;>
      exact ⟨rfl, rfl, rfl⟩
  | cons face faces ih =>
    intro shapes es hlen h
    cases shapes with
    | nil => simp at hlen
    | cons shape shapes =>
      simp only [draw_faces] at h
      split at h
      · rename_i es1 hes1
        split at h
        · rename_i rest hrest
          have h1 := draw_face_trace hes1
          have h2 := ih shapes rest (by simpa using hlen) hrest
          simp only [Option.some.injEq] at h
          subst h
          simp [detector_calls_append, predicted_boxes_append, drawn_boxes_append, h1, h2]
        · exact absurd h (by simp)
      · exact absurd h (by simp)

end FacePose

namespace FacePose

/-! ## One iteration of the frame loop -/

/-- A completed iteration, read off the definition: the key was not 27, the frame was
read and resized, the boxes in use were drawn, and state and trace are as the
body builds them. -/
theorem loop_iteration_next {c : Collaborators} {s : LoopState} {t : Tick} {s1 : LoopState}
    {tr : List Effect} (h : loop_iteration c s t = StepResult.next s1 tr) :
    ∃ frame small drawing,
      t.key ≠ 27 ∧ t.frame = some frame ∧ c.resize frame = Except.ok small ∧
      draw_faces (if s.iteration_count % 2 = 0 then c.detector small else s.faces)
        ((if s.iteration_count % 2 = 0 then c.detector small else s.faces).map
          (c.pose_model small)) = some drawing ∧
      s1 = fps_step { s with iteration_count := (s.iteration_count + 1) % 256,
                             faces := if s.iteration_count % 2 = 0 then c.detector small
                                      else s.faces } t.now ∧
      tr = (if s.iteration_count % 2 = 0 then [Effect.detector small] else []) ++
            (if s.iteration_count % 2 = 0 then c.detector small else s.faces).map
              (Effect.pose_model small) ++ drawing ++
            [Effect.putText s1.fps, Effect.namedWindow, Effect.imshow small] := by
  unfold loop_iteration at h
  split at h
  · exact absurd h (by simp)
  · rename_i hkey
    split at h
    · exact absurd h (by simp)
    · rename_i frame hframe
      split at h
      · exact absurd h (by simp)
      · rename_i small hsmall
        simp only [image_detection_ratio, beq_iff_eq] at h
        split at h
        · exact absurd h (by simp)
        · rename_i drawing hdrawing
          simp only [StepResult.next.injEq] at h
          obtain ⟨hs, htr⟩ := h
          refine ⟨frame, small, drawing, hkey, hframe, hsmall, ?_, hs.symm, ?_⟩
          · simpa using hdrawing
          · rw [← htr, ← hs]

/-- What a completed iteration does with the counter, the cached boxes and the
collaborators. -/
theorem loop_iteration_summary {c : Collaborators} {s : LoopState} {t : Tick} {s1 : LoopState}
    {tr : List Effect} (h : loop_iteration c s t = StepResult.next s1 tr) :
    ∃ frame small,
      t.frame = some frame ∧ c.resize frame = Except.ok small ∧
      s1.iteration_count = (s.iteration_count + 1) % 256 ∧
      s1.faces = (if s.iteration_count % 2 = 0 then c.detector small else s.faces) ∧
      detector_calls tr = (if s.iteration_count % 2 = 0 then [small] else []) ∧
      predicted_boxes tr = s1.faces ∧
      drawn_boxes tr = s1.faces.map dlibRectangleToOpenCV := by
  obtain ⟨frame, small, drawing, _, hframe, hsmall, hdraw, hs, htr⟩ := loop_iteration_next h
  have hd := draw_faces_trace _ _ drawing (by simp) hdraw
  have hfaces : s1.faces = (if s.iteration_count % 2 = 0 then c.detector small else s.faces) := by
    rw [hs]; simp
  refine ⟨frame, small, hframe, hsmall, by rw [hs]; simp, hfaces, ?_, ?_, ?_⟩
  · rw [htr]
    simp only [detector_calls_append, detector_calls_pose_model, hd.1, List.append_nil]
    split <;> simp [detector_calls]
  · rw [htr, hfaces]
    simp only [predicted_boxes_append, predicted_boxes_pose_model, hd.2.1, List.append_nil]
    split <;> simp [predicted_boxes]
  · rw [htr, hfaces]
    simp only [drawn_boxes_append, drawn_boxes_pose_model, hd.2.2, List.append_nil]
    split <;> simp [drawn_boxes]

/-- Before iteration `n` of a run from the initial state the 8-bit counter holds
`n mod 256`. -/
theorem state_before_iteration_count (c : Collaborators) (start : Int) (ticks : Nat → Tick) :
    ∀ (n : Nat) (s : LoopState), state_before c (initial_state start) ticks n = some s →
      s.iteration_count = n % 256 := by
  intro n
  induction n with
  | zero =>
    intro s h
    simp only [state_before, Option.some.injEq] at h
    subst h
    rfl
  | succ n ih =>
    intro s h
    simp only [state_before] at h
    split at h
    · rename_i s0 hs0
      split at h
      · rename_i s1 tr hstep
        simp only [Option.some.injEq] at h
        subst h
        obtain ⟨_, _, _, _, hcount, _⟩ := loop_iteration_summary hstep
        rw [hcount, ih s0 hs0]
        omega
      · exact absurd h (by simp)
    · exact absurd h (by simp)

theorem iteration_some {c : Collaborators} {s : LoopState} {ticks : Nat → Tick} {n : Nat}
    {r : StepResult} (h : iteration c s ticks n = some r) :
    ∃ s0, state_before c s ticks n = some s0 ∧ loop_iteration c s0 (ticks n) = r := by
  unfold iteration at h
  split at h
  · rename_i s0 hs0
    exact ⟨s0, hs0, Option.some.inj h⟩
  · exact absurd h (by simp)

theorem state_before_succ {c : Collaborators} {s : LoopState} {ticks : Nat → Tick} {n : Nat}
    {s1 : LoopState} (h : state_before c s ticks (n + 1) = some s1) :
    ∃ s0 tr, state_before c s ticks n = some s0 ∧
      loop_iteration c s0 (ticks n) = StepResult.next s1 tr := by
  simp only [state_before] at h
  split at h
  · rename_i s0 hs0
    split at h
    · rename_i s2 tr hstep
      simp only [Option.some.injEq] at h
      subst h
      exact ⟨s0, tr, hs0, hstep⟩
    · exact absurd h (by simp)
  · exact absurd h (by simp)

end FacePose

namespace FacePose

/-! ## Frame skipping -/

/-- C1. In a run of the frame loop from its initial state, before iteration `n` the
8-bit counter holds `n mod 256`, and when iteration `n` is executed to its end
the detector is invoked during it if and only if `n` is even (then exactly once,
on the resized frame of that iteration); this holds for every `n`, also after
the counter has wrapped. -/
theorem detector_runs_iff_even (c : Collaborators) (start : Int) (ticks : Nat → Tick) (n : Nat)
    (s1 : LoopState) (tr : List Effect)
    (h : iteration c (initial_state start) ticks n = some (StepResult.next s1 tr)) :
    (∃ s0, state_before c (initial_state start) ticks n = some s0 ∧
        s0.iteration_count = n % 256) ∧
    (detector_calls tr ≠ [] ↔ n % 2 = 0) ∧
    (n % 2 = 0 → ∃ frame small, (ticks n).frame = some frame ∧
        c.resize frame = Except.ok small ∧ detector_calls tr = [small]) := by
  obtain ⟨s0, hs0, hstep⟩ := iteration_some h
  have hcount := state_before_iteration_count c start ticks n s0 hs0
  obtain ⟨frame, small, hframe, hsmall, _, _, hdet, _, _⟩ := loop_iteration_summary hstep
  have hpar : s0.iteration_count % 2 = n % 2 := by rw [hcount]; omega
  rw [hpar] at hdet
  refine ⟨⟨s0, hs0, hcount⟩, ?_, ?_⟩
  · rw [hdet]
    by_cases hn : n % 2 = 0 <;> simp [hn]
  · intro hn
    exact ⟨frame, small, hframe, hsmall, by rw [hdet]; simp [hn]⟩

/-- C2. A completed iteration that does not call the detector leaves the cached
boxes unchanged, one that calls it replaces them by what it returned, and the
boxes handed to the landmark model and drawn are the cached boxes after that
step.  In a run from the initial state, on every odd iteration `n` the detector
is not called and the boxes used for landmark prediction and for drawing are
exactly the list the detector returned on iteration `n - 1`. -/
theorem odd_iteration_reuses_boxes (c : Collaborators) :
    (∀ (s : LoopState) (t : Tick) (s1 : LoopState) (tr : List Effect),
      loop_iteration c s t = StepResult.next s1 tr →
        (detector_calls tr = [] → s1.faces = s.faces) ∧
        (∀ img, detector_calls tr = [img] → s1.faces = c.detector img) ∧
        predicted_boxes tr = s1.faces ∧
        drawn_boxes tr = s1.faces.map dlibRectangleToOpenCV) ∧
    (∀ (start : Int) (ticks : Nat → Tick) (n : Nat) (s1 : LoopState) (tr : List Effect),
      n % 2 = 1 →
      iteration c (initial_state start) ticks n = some (StepResult.next s1 tr) →
        ∃ s0 tr0 img,
          iteration c (initial_state start) ticks (n - 1) = some (StepResult.next s0 tr0) ∧
          detector_calls tr0 = [img] ∧
          detector_calls tr = [] ∧
          s1.faces = c.detector img ∧
          predicted_boxes tr = c.detector img ∧
          drawn_boxes tr = (c.detector img).map dlibRectangleToOpenCV) := by
  constructor
  · intro s t s1 tr h
    obtain ⟨frame, small, _, _, _, hfaces, hdet, hpred, hdrawn⟩ := loop_iteration_summary h
    refine ⟨?_, ?_, hpred, hdrawn⟩
    · intro hnone
      by_cases hp : s.iteration_count % 2 = 0
      · rw [hdet] at hnone; simp [hp] at hnone
      · rw [hfaces]; simp [hp]
    · intro img himg
      by_cases hp : s.iteration_count % 2 = 0
      · rw [hdet] at himg
        simp only [hp, if_true, List.cons.injEq, and_true] at himg
        rw [hfaces, ← himg]; simp [hp]
      · rw [hdet] at himg; simp [hp] at himg
  · intro start ticks n s1 tr hodd h
    obtain ⟨m, rfl⟩ : ∃ m, n = m + 1 := ⟨n - 1, by omega⟩
    obtain ⟨sn, hsn, hstep⟩ := iteration_some h
    obtain ⟨s0, tr0, hs0, hstep0⟩ := state_before_succ hsn
    have hc0 := state_before_iteration_count c start ticks m s0 hs0
    have hcn := state_before_iteration_count c start ticks (m + 1) sn hsn
    obtain ⟨_, img, _, _, _, hfaces0, hdet0, _, _⟩ := loop_iteration_summary hstep0
    obtain ⟨_, small, _, _, _, hfaces, hdet, hpred, hdrawn⟩ := loop_iteration_summary hstep
    have hp0 : s0.iteration_count % 2 = 0 := by rw [hc0]; omega
    have hpn : ¬ sn.iteration_count % 2 = 0 := by rw [hcn]; omega
    simp only [hp0, if_true] at hfaces0 hdet0
    simp only [hpn, if_false] at hfaces hdet
    have hs1 : s1.faces = c.detector img := by rw [hfaces, hfaces0]
    refine ⟨sn, tr0, img, ?_, hdet0, hdet, hs1, by rw [hpred, hs1], by rw [hdrawn, hs1]⟩
    simp only [Nat.add_sub_cancel, iteration, hs0, hstep0]

end FacePose

namespace FacePose

set_option maxRecDepth 100000 in
/-- C1, instance: iteration 257 of a run in which every read succeeds.  The 8-bit
counter has wrapped to 1, the detector is not called, and the trace holds only
the landmark prediction, the drawing and the display. -/
theorem detector_runs_iff_even_witness :
    (∃ s0, state_before example_collaborators (initial_state 0) steady_ticks 257 = some s0 ∧
        s0.iteration_count = 257 % 256) ∧
    (detector_calls ([Effect.pose_model ⟨357⟩ ⟨356, 0, 366, 10⟩] ++
        example_drawing ⟨356, 0, 366, 10⟩ ++
        [Effect.putText 0, Effect.namedWindow, Effect.imshow ⟨357⟩]) ≠ [] ↔ 257 % 2 = 0) ∧
    (257 % 2 = 0 → ∃ frame small, (steady_ticks 257).frame = some frame ∧
        example_collaborators.resize frame = Except.ok small ∧
        detector_calls ([Effect.pose_model ⟨357⟩ ⟨356, 0, 366, 10⟩] ++
          example_drawing ⟨356, 0, 366, 10⟩ ++
          [Effect.putText 0, Effect.namedWindow, Effect.imshow ⟨357⟩]) = [small]) :=
  detector_runs_iff_even example_collaborators 0 steady_ticks 257
    ⟨2, [⟨356, 0, 366, 10⟩], 0, 258, 0⟩ _ (by decide)

/-- C2, instance: iteration 1 of the example run draws and predicts on the box the
detector returned on iteration 0, and a single odd step from a state with one
cached box leaves it as it was and draws it. -/
theorem odd_iteration_reuses_boxes_witness :
    (((detector_calls ([Effect.pose_model ⟨105⟩ ⟨1, 2, 30, 40⟩] ++ example_drawing ⟨1, 2, 30, 40⟩ ++
          [Effect.putText 0, Effect.namedWindow, Effect.imshow ⟨105⟩]) = [] →
        (LoopState.mk 4 [⟨1, 2, 30, 40⟩] 0 1 0).faces
          = (LoopState.mk 3 [⟨1, 2, 30, 40⟩] 0 0 0).faces) ∧
      (∀ img, detector_calls ([Effect.pose_model ⟨105⟩ ⟨1, 2, 30, 40⟩] ++ example_drawing ⟨1, 2, 30, 40⟩ ++
          [Effect.putText 0, Effect.namedWindow, Effect.imshow ⟨105⟩]) = [img] →
        (LoopState.mk 4 [⟨1, 2, 30, 40⟩] 0 1 0).faces = example_collaborators.detector img) ∧
      predicted_boxes ([Effect.pose_model ⟨105⟩ ⟨1, 2, 30, 40⟩] ++ example_drawing ⟨1, 2, 30, 40⟩ ++
          [Effect.putText 0, Effect.namedWindow, Effect.imshow ⟨105⟩])
        = (LoopState.mk 4 [⟨1, 2, 30, 40⟩] 0 1 0).faces ∧
      drawn_boxes ([Effect.pose_model ⟨105⟩ ⟨1, 2, 30, 40⟩] ++ example_drawing ⟨1, 2, 30, 40⟩ ++
          [Effect.putText 0, Effect.namedWindow, Effect.imshow ⟨105⟩])
        = (LoopState.mk 4 [⟨1, 2, 30, 40⟩] 0 1 0).faces.map dlibRectangleToOpenCV)) ∧
    (∃ s0 tr0 img,
      iteration example_collaborators (initial_state 0) steady_ticks (1 - 1)
        = some (StepResult.next s0 tr0) ∧
      detector_calls tr0 = [img] ∧
      detector_calls ([Effect.pose_model ⟨101⟩ ⟨100, 0, 110, 10⟩] ++
        example_drawing ⟨100, 0, 110, 10⟩ ++
        [Effect.putText 0, Effect.namedWindow, Effect.imshow ⟨101⟩]) = [] ∧
      (LoopState.mk 2 [⟨100, 0, 110, 10⟩] 0 2 0).faces = example_collaborators.detector img ∧
      predicted_boxes ([Effect.pose_model ⟨101⟩ ⟨100, 0, 110, 10⟩] ++
        example_drawing ⟨100, 0, 110, 10⟩ ++
        [Effect.putText 0, Effect.namedWindow, Effect.imshow ⟨101⟩])
        = example_collaborators.detector img ∧
      drawn_boxes ([Effect.pose_model ⟨101⟩ ⟨100, 0, 110, 10⟩] ++
        example_drawing ⟨100, 0, 110, 10⟩ ++
        [Effect.putText 0, Effect.namedWindow, Effect.imshow ⟨101⟩])
        = (example_collaborators.detector img).map dlibRectangleToOpenCV) :=
  ⟨(odd_iteration_reuses_boxes example_collaborators).1 ⟨3, [⟨1, 2, 30, 40⟩], 0, 0, 0⟩
      ⟨-1, some ⟨5⟩, 0⟩ ⟨4, [⟨1, 2, 30, 40⟩], 0, 1, 0⟩ _ (by decide),
   (odd_iteration_reuses_boxes example_collaborators).2 0 steady_ticks 1
      ⟨2, [⟨100, 0, 110, 10⟩], 0, 2, 0⟩ _ (by decide) (by decide)⟩

end FacePose

namespace FacePose

/-! ## The polylines -/

theorem part_of_lt (d : full_object_detection) (i : Nat) (h : i < d.parts.length) :
    d.part (i : Int) = some (d.parts.get ⟨i, h⟩) := by
  unfold full_object_detection.part
  simp [List.getElem?_eq_getElem h]

/-- The loop of `draw_polyline`, started at index `i` with exactly the iterations
left up to `e`, appends the points with indices `i .. e` in order. -/
theorem draw_polyline_loop_spec (d : full_object_detection) (e : Nat)
    (he : e < d.parts.length) (he2 : e < 2147483647) :
    ∀ (fuel i : Nat) (acc : List cvPoint), i + fuel = e + 1 →
      draw_polyline_loop d (e : Int) fuel (i : Int) acc
        = some (acc ++ ((d.parts.drop i).take fuel).map toCvPoint) := by
  intro fuel
  induction fuel with
  | zero =>
    intro i acc hi
    have : ¬ ((i : Int) ≤ (e : Int)) := by omega
    simp [draw_polyline_loop, this]
  | succ fuel ih =>
    intro i acc hi
    have hle : (i : Int) ≤ (e : Int) := by omega
    have hlt : i < d.parts.length := by omega
    have hwrap : wrap32 ((i : Int) + 1) = ((i + 1 : Nat) : Int) := by
      unfold wrap32; omega
    simp only [draw_polyline_loop, hle, if_true, part_of_lt d i hlt, hwrap]
    rw [ih (i + 1) _ (by omega)]
    have hd : d.parts.drop i = d.parts.get ⟨i, hlt⟩ :: d.parts.drop (i + 1) :=
      List.drop_eq_getElem_cons hlt
    rw [hd, List.take_succ_cons, List.map_cons, List.append_assoc]
    rfl


theorem draw_polyline_spec (d : full_object_detection) (start end_ : Nat) (isClosed : Bool)
    (hse : start ≤ end_) (he : end_ < d.parts.length) (he2 : end_ < 2147483647) :
    draw_polyline d (start : Int) (end_ : Int) isClosed
      = some (Effect.polylines (part_range d start end_) isClosed ⟨0, 255, 0⟩ 1 16) := by
  have hfuel : ((end_ : Int) + 1 - (start : Int)).toNat = end_ + 1 - start := by omega
  unfold draw_polyline
  rw [hfuel, draw_polyline_loop_spec d end_ he he2 (end_ + 1 - start) start [] (by omega)]
  rfl

theorem part_range_length (d : full_object_detection) (start end_ : Nat)
    (hse : start ≤ end_) (he : end_ < d.parts.length) :
    (part_range d start end_).length = end_ - start + 1 := by
  unfold part_range
  simp only [List.length_map, List.length_take, List.length_drop]
  omega

theorem part_range_getElem (d : full_object_detection) (start end_ k : Nat)
    (hk : start + k ≤ end_) (he : end_ < d.parts.length) :
    (part_range d start end_)[k]? = (d.part ((start + k : Nat) : Int)).map toCvPoint := by
  have hlt : start + k < d.parts.length := by omega
  rw [part_of_lt d (start + k) hlt]
  unfold part_range
  have hk2 : k < end_ + 1 - start := by omega
  simp [List.getElem?_map, List.getElem?_take, hk2, List.getElem?_drop, List.getElem?_eq_getElem hlt]

/-- C3. A call `draw_polyline(start, end)` with `start ≤ end` inside the stored
landmarks hands the renderer exactly the `end - start + 1` points
`part(start), .., part(end)` in increasing index order, with the given closed
flag.  For a face with 68 landmarks the drawing step issues, after the box,
exactly nine polylines in this order: jaw 0-16 open, left eyebrow 17-21 open,
right eyebrow 22-26 open, nose bridge 27-30 open, lower nose 30-35 closed, left eye
36-41 closed, right eye 42-47 closed, outer lip 48-59 closed, inner lip 60-67
closed. -/
theorem nine_polylines (face : rectangle) (d : full_object_detection) :
    (∀ (start end_ : Nat) (isClosed : Bool), start ≤ end_ → end_ < d.parts.length →
      end_ < 2147483647 →
        draw_polyline d (start : Int) (end_ : Int) isClosed
          = some (Effect.polylines (part_range d start end_) isClosed ⟨0, 255, 0⟩ 1 16) ∧
        (part_range d start end_).length = end_ - start + 1 ∧
        ∀ k : Nat, start + k ≤ end_ →
          (part_range d start end_)[k]? = (d.part ((start + k : Nat) : Int)).map toCvPoint) ∧
    (d.parts.length = 68 →
      draw_face face d = some
        [Effect.rectangle (dlibRectangleToOpenCV face) ⟨0, 0, 255⟩,
         Effect.polylines (part_range d 0 16) false ⟨0, 255, 0⟩ 1 16,
         Effect.polylines (part_range d 17 21) false ⟨0, 255, 0⟩ 1 16,
         Effect.polylines (part_range d 22 26) false ⟨0, 255, 0⟩ 1 16,
         Effect.polylines (part_range d 27 30) false ⟨0, 255, 0⟩ 1 16,
         Effect.polylines (part_range d 30 35) true ⟨0, 255, 0⟩ 1 16,
         Effect.polylines (part_range d 36 41) true ⟨0, 255, 0⟩ 1 16,
         Effect.polylines (part_range d 42 47) true ⟨0, 255, 0⟩ 1 16,
         Effect.polylines (part_range d 48 59) true ⟨0, 255, 0⟩ 1 16,
         Effect.polylines (part_range d 60 67) true ⟨0, 255, 0⟩ 1 16]) := by
  constructor
  · intro start end_ isClosed hse he he2
    exact ⟨draw_polyline_spec d start end_ isClosed hse he he2,
      part_range_length d start end_ hse he,
      fun k hk => part_range_getElem d start end_ k hk he⟩
  · intro h68
    have key : ∀ (a b : Nat) (cl : Bool), a ≤ b → b < 68 →
        draw_polyline d (a : Int) (b : Int) cl
          = some (Effect.polylines (part_range d a b) cl ⟨0, 255, 0⟩ 1 16) :=
      fun a b cl hab hb => draw_polyline_spec d a b cl hab (by omega) (by omega)
    have k1 := key 0 16 false (by decide) (by decide)
    have k2 := key 17 21 false (by decide) (by decide)
    have k3 := key 22 26 false (by decide) (by decide)
    have k4 := key 27 30 false (by decide) (by decide)
    have k5 := key 30 35 true (by decide) (by decide)
    have k6 := key 36 41 true (by decide) (by decide)
    have k7 := key 42 47 true (by decide) (by decide)
    have k8 := key 48 59 true (by decide) (by decide)
    have k9 := key 60 67 true (by decide) (by decide)
    simp only [Nat.cast_ofNat, Nat.cast_zero] at k1 k2 k3 k4 k5 k6 k7 k8 k9
    simp only [draw_face, polyline_calls, draw_polylines, k1, k2, k3, k4, k5, k6, k7, k8, k9]

/-- C3, instance: the lower-nose polyline of the example landmarks, and the whole
drawing of the example face written out point by point. -/
theorem nine_polylines_witness :
    (draw_polyline (example_pose_model ⟨0⟩ ⟨100, 0, 110, 10⟩) ((30 : Nat) : Int) ((35 : Nat) : Int) true
        = some (Effect.polylines (part_range (example_pose_model ⟨0⟩ ⟨100, 0, 110, 10⟩) 30 35)
            true ⟨0, 255, 0⟩ 1 16) ∧
      (part_range (example_pose_model ⟨0⟩ ⟨100, 0, 110, 10⟩) 30 35).length = 35 - 30 + 1 ∧
      ∀ k : Nat, 30 + k ≤ 35 →
        (part_range (example_pose_model ⟨0⟩ ⟨100, 0, 110, 10⟩) 30 35)[k]?
          = ((example_pose_model ⟨0⟩ ⟨100, 0, 110, 10⟩).part ((30 + k : Nat) : Int)).map
              toCvPoint) ∧
    draw_face ⟨100, 0, 110, 10⟩ (example_pose_model ⟨0⟩ ⟨100, 0, 110, 10⟩)
      = some (example_drawing ⟨100, 0, 110, 10⟩) :=
  ⟨(nine_polylines ⟨100, 0, 110, 10⟩ (example_pose_model ⟨0⟩ ⟨100, 0, 110, 10⟩)).1 30 35 true
      (by decide) (by decide) (by decide),
   ((nine_polylines ⟨100, 0, 110, 10⟩ (example_pose_model ⟨0⟩ ⟨100, 0, 110, 10⟩)).2
      (by decide)).trans (by decide)⟩

end FacePose

namespace FaceDetection

/-! ## The image batch annotator -/

theorem annotator_drawn_rectangles_append (xs ys : List Effect) :
    drawn_rectangles (xs ++ ys) = drawn_rectangles xs ++ drawn_rectangles ys := by
  induction xs with
  | nil => rfl
  | cons e xs ih => cases e <;> simp [drawn_rectangles, ih]

theorem annotator_detector_calls_append (xs ys : List Effect) :
    detector_calls (xs ++ ys) = detector_calls xs ++ detector_calls ys := by
  induction xs with
  | nil => rfl
  | cons e xs ih => cases e <;> simp [detector_calls, ih]

theorem draw_detections_trace (image : Image) (dets : List rectangle) :
    drawn_rectangles (draw_detections image dets) = dets.map (fun d => (image, rect_down d)) ∧
    detector_calls (draw_detections image dets) = [] := by
  induction dets with
  | nil => exact ⟨rfl, rfl⟩
  | cons d ds ih => simp [draw_detections, drawn_rectangles, detector_calls, ih.1, ih.2]

/-- C5. When an image is loaded, the detector runs once, on the 2x-upsampled
grey-scale copy, and for every box it returns, in order, one box is drawn on the
original image whose left, top, right and bottom are the detected coordinates
divided by 2. -/
theorem drawn_boxes_are_halved (w : World) (path : String) (image : Image)
    (h : w.load_image path = Except.ok image) :
    detector_calls (process_image w path).1 = [w.pyramid_up (w.assign_image image)] ∧
    drawn_rectangles (process_image w path).1
      = (w.detector (w.pyramid_up (w.assign_image image))).map
          (fun d => (image, ⟨(d.left : ℚ) / 2, (d.top : ℚ) / 2, (d.right : ℚ) / 2,
                             (d.bottom : ℚ) / 2⟩)) := by
  have ht := draw_detections_trace image (w.detector (w.pyramid_up (w.assign_image image)))
  simp only [process_image, h]
  constructor
  · simp [detector_calls, annotator_detector_calls_append, ht.2]
  · simp [drawn_rectangles, annotator_drawn_rectangles_append, ht.1, rect_down, upsample_factor]

/-- C6. Run with the program name as only argument (`argc == 1`), the annotator
prints the usage message and nothing else happens: no window, no detector, no
image loaded, detected on or displayed; the exit code is 0. -/
theorem no_arguments_prints_usage (w : World) (argv : List String) (h : argv.length = 1) :
    main w argv
      = ([Effect.cout "Provide image paths as command line arguments to this program.\n"], 0) ∧
    Effect.image_window ∉ (main w argv).1 ∧
    Effect.get_frontal_face_detector ∉ (main w argv).1 ∧
    (∀ p, Effect.load_image p ∉ (main w argv).1) ∧
    (∀ img, Effect.detector img ∉ (main w argv).1) ∧
    (∀ img, Effect.set_image img ∉ (main w argv).1) := by
  have hm : main w argv
      = ([Effect.cout "Provide image paths as command line arguments to this program.\n"], 0) := by
    simp only [main, h, if_true]
  rw [hm]
  simp

end FaceDetection

namespace FaceDetection

/-- C5, instance: the two boxes found on the upsampled copy of `a.png` are drawn
on the loaded image with halved coordinates. -/
theorem drawn_boxes_are_halved_witness :
    detector_calls (process_image example_world "a.png").1
      = [example_world.pyramid_up (example_world.assign_image ⟨5⟩)] ∧
    drawn_rectangles (process_image example_world "a.png").1
      = (example_world.detector (example_world.pyramid_up (example_world.assign_image ⟨5⟩))).map
          (fun d => ((⟨5⟩ : Image), ⟨(d.left : ℚ) / 2, (d.top : ℚ) / 2, (d.right : ℚ) / 2,
                             (d.bottom : ℚ) / 2⟩)) :=
  drawn_boxes_are_halved example_world "a.png" ⟨5⟩ (by rfl)

/-- C6, instance: the annotator started as `./face-detection` alone. -/
theorem no_arguments_prints_usage_witness :
    main example_world ["./face-detection"]
      = ([Effect.cout "Provide image paths as command line arguments to this program.\n"], 0) ∧
    Effect.image_window ∉ (main example_world ["./face-detection"]).1 ∧
    Effect.get_frontal_face_detector ∉ (main example_world ["./face-detection"]).1 ∧
    (∀ p, Effect.load_image p ∉ (main example_world ["./face-detection"]).1) ∧
    (∀ img, Effect.detector img ∉ (main example_world ["./face-detection"]).1) ∧
    (∀ img, Effect.set_image img ∉ (main example_world ["./face-detection"]).1) :=
  no_arguments_prints_usage example_world ["./face-detection"] (by decide)

end FaceDetection

namespace FacePose

/-! ## Failures -/

theorem printed_append (xs ys : List Effect) :
    printed (xs ++ ys) = printed xs ++ printed ys := by
  induction xs with
  | nil => rfl
  | cons e xs ih => cases e <;> simp [printed, ih]

theorem printed_pose_model (img : Mat) (faces : List rectangle) :
    printed (faces.map (Effect.pose_model img)) = [] := by
  induction faces with
  | nil => rfl
  | cons f fs ih => simpa [printed] using ih

theorem draw_polylines_printed (d : full_object_detection) :
    ∀ (calls : List (Int × Int × Bool)) (es : List Effect), draw_polylines d calls = some es →
      printed es = [] := by
  intro calls
  induction calls with
  | nil =>
    intro es h
    simp only [draw_polylines, Option.some.injEq] at h
    subst h
    rfl
  | cons c rest ih =>
    intro es h
    obtain ⟨start, end_, isClosed⟩ := c
    simp only [draw_polylines] at h
    split at h
    · rename_i e he
      split at h
      · rename_i es1 hes1
        obtain ⟨points, rfl⟩ := draw_polyline_some he
        have := ih es1 hes1
        simp only [Option.some.injEq] at h
        subst h
        simpa [printed] using this
      · exact absurd h (by simp)
    · exact absurd h (by simp)

theorem draw_faces_printed :
    ∀ (faces : List rectangle) (shapes : List full_object_detection) (es : List Effect),
      draw_faces faces shapes = some es → printed es = [] := by
  intro faces
  induction faces with
  | nil =>
    intro shapes es h
    cases shapes <;> simp only [draw_faces, Option.some.injEq] at h <;> subst h <;> rfl
  | cons face faces ih =>
    intro shapes es h
    cases shapes with
    | nil =>
      simp only [draw_faces, Option.some.injEq] at h
      subst h
      rfl
    | cons shape shapes =>
      simp only [draw_faces] at h
      split at h
      · rename_i es1 hes1
        split at h
        · rename_i rest hrest
          have h2 := ih shapes rest hrest
          simp only [Option.some.injEq] at h
          subst h
          unfold draw_face at hes1
          split at hes1
          · rename_i ps hps
            have h1 := draw_polylines_printed shape _ ps hps
            simp only [Option.some.injEq] at hes1
            subst hes1
            simp [printed_append, printed, h1, h2]
          · exact absurd hes1 (by simp)
        · exact absurd h (by simp)
      · exact absurd h (by simp)

theorem loop_iteration_printed {c : Collaborators} {s : LoopState} {t : Tick} {s1 : LoopState}
    {tr : List Effect} (h : loop_iteration c s t = StepResult.next s1 tr) : printed tr = [] := by
  obtain ⟨frame, small, drawing, _, _, _, hdraw, _, htr⟩ := loop_iteration_next h
  have hd := draw_faces_printed _ _ drawing hdraw
  rw [htr]
  simp only [printed_append, printed_pose_model, hd, List.append_nil]
  split <;> simp [printed]

theorem frame_loop_printed (c : Collaborators) :
    ∀ (ticks : List Tick) (s : LoopState), printed (frame_loop c s ticks).1 = [] := by
  intro ticks
  induction ticks with
  | nil => intro s; rfl
  | cons t ts ih =>
    intro s
    simp only [frame_loop]
    split
    · rfl
    · rfl
    · rfl
    · rename_i s1 effects hstep
      simp [printed_append, loop_iteration_printed hstep, ih s1]

/-- Whenever an exception leaves the `try` block, nothing has been printed yet. -/
theorem try_block_printed {w : World} {tr : List Effect} {e : Failure}
    (h : try_block w = (tr, Except.error e)) : printed tr = [] := by
  unfold try_block at h
  split at h
  · simp at h
  · split at h
    · simp only [Prod.mk.injEq, Except.error.injEq] at h
      rw [← h.1]; rfl
    · rename_i pose_model _
      have hp := frame_loop_printed ⟨w.detector, pose_model, w.resize⟩ w.ticks
        (initial_state w.start)
      split at h
      · simp at h
      · rename_i effects e1 heq
        simp only [Prod.mk.injEq, Except.error.injEq] at h
        rw [← h.1]
        rw [heq] at hp
        exact hp
      · simp at h
      · simp at h

/-- C7. A missing landmark-model file, that is a serialization error raised by
loading `shape_predictor_68_face_landmarks.dat` once the camera has opened, makes
`main` print the three lines of download instructions followed by the message,
and nothing else.  Every serialization error that leaves the `try` block takes
that path; every failure of the other kind takes the generic path, on which the
only text printed by the whole run is the underlying message.  In all cases `main`
returns 0. -/
theorem failure_paths (w : World) :
    (∀ what : String, w.isOpened = true →
      w.deserialize "shape_predictor_68_face_landmarks.dat"
        = Except.error ⟨FailureKind.serialization_error, what⟩ →
      main w = (download_instructions ++ [Effect.print ("\n" ++ what ++ "\n")],
                Outcome.returned 0)) ∧
    (∀ (tr : List Effect) (e : Failure), try_block w = (tr, Except.error e) →
      e.kind = FailureKind.serialization_error →
      main w = (tr ++ download_instructions ++ [Effect.print ("\n" ++ e.what ++ "\n")],
                Outcome.returned 0) ∧
      printed (main w).1 = printed download_instructions ++ ["\n" ++ e.what ++ "\n"]) ∧
    (∀ (tr : List Effect) (e : Failure), try_block w = (tr, Except.error e) →
      e.kind = FailureKind.exception →
      main w = (tr ++ [Effect.print (e.what ++ "\n")], Outcome.returned 0) ∧
      printed (main w).1 = [e.what ++ "\n"]) := by
  refine ⟨?_, ?_, ?_⟩
  · intro what hopen hload
    simp [main, try_block, hopen, hload, catch_clauses]
  · intro tr e h hk
    have hp := try_block_printed h
    have hm : main w = (tr ++ download_instructions ++ [Effect.print ("\n" ++ e.what ++ "\n")],
        Outcome.returned 0) := by
      simp [main, h, catch_clauses, hk]
    refine ⟨hm, ?_⟩
    rw [hm]
    simp [printed_append, hp, printed]
  · intro tr e h hk
    have hp := try_block_printed h
    have hm : main w = (tr ++ [Effect.print (e.what ++ "\n")], Outcome.returned 0) := by
      simp [main, h, catch_clauses, hk]
    refine ⟨hm, ?_⟩
    rw [hm]
    simp [printed_append, hp, printed]


/-- C7, instance: a world whose model file is missing, and a world in which
`cv::resize` throws an ordinary exception on the second frame. -/
theorem failure_paths_witness :
    main missing_model_world
      = (download_instructions ++
          [Effect.print
            ("\n" ++ "Unable to open shape_predictor_68_face_landmarks.dat for reading." ++ "\n")],
         Outcome.returned 0) ∧
    (main missing_model_world
      = ([] ++ download_instructions ++
          [Effect.print
            ("\n" ++ (Failure.mk FailureKind.serialization_error
              "Unable to open shape_predictor_68_face_landmarks.dat for reading.").what ++ "\n")],
         Outcome.returned 0) ∧
      printed (main missing_model_world).1
        = printed download_instructions ++
          ["\n" ++ (Failure.mk FailureKind.serialization_error
              "Unable to open shape_predictor_68_face_landmarks.dat for reading.").what ++ "\n"]) ∧
    (main failing_resize_world
      = ([Effect.detector ⟨100⟩, Effect.putText 0, Effect.namedWindow, Effect.imshow ⟨100⟩] ++
          [Effect.print ((Failure.mk FailureKind.exception "resize: empty input").what ++ "\n")],
         Outcome.returned 0) ∧
      printed (main failing_resize_world).1
        = [(Failure.mk FailureKind.exception "resize: empty input").what ++ "\n"]) :=
  ⟨(failure_paths missing_model_world).1 _ rfl rfl,
   (failure_paths missing_model_world).2.1 []
      ⟨FailureKind.serialization_error,
        "Unable to open shape_predictor_68_face_landmarks.dat for reading."⟩ rfl rfl,
   (failure_paths failing_resize_world).2.2
      [Effect.detector ⟨100⟩, Effect.putText 0, Effect.namedWindow, Effect.imshow ⟨100⟩]
      ⟨FailureKind.exception, "resize: empty input"⟩ rfl rfl⟩

end FacePose

namespace FacePose

/-! ## The measurement window -/

theorem loop_iteration_fps_count {c : Collaborators} {s : LoopState} {t : Tick} {s1 : LoopState}
    {tr : List Effect} (h : loop_iteration c s t = StepResult.next s1 tr) :
    s1.fps_count = (if 1 ≤ difftime t.now s.start then 0 else (s.fps_count + 1) % 4294967296) := by
  obtain ⟨_, _, _, _, _, _, _, hs, _⟩ := loop_iteration_next h
  rw [hs]
  by_cases hc : 1 ≤ difftime t.now s.start <;> simp [fps_step, hc]

/-- In every run the frame count used at a recomputation is one less (modulo 2^32)
than the number of iterations of its window, the recomputing iteration
included. -/
theorem fps_windows_numerator (c : Collaborators) :
    ∀ (ticks : List Tick) (s : LoopState) (since_reset : Nat),
      s.fps_count = since_reset % 4294967296 →
      ∀ p ∈ fps_windows c s since_reset ticks, 0 < p.2 ∧ p.1 = (p.2 - 1) % 4294967296 := by
  intro ticks
  induction ticks with
  | nil => intro s since_reset _ p hp; simp [fps_windows] at hp
  | cons t ts ih =>
    intro s since_reset hinv p hp
    simp only [fps_windows] at hp
    split at hp
    · rename_i s1 tr hstep
      have hcount := loop_iteration_fps_count hstep
      split at hp
      · rename_i hcross
        simp only [hcross, if_true] at hcount
        rcases List.mem_cons.mp hp with rfl | hrest
        · exact ⟨Nat.succ_pos _, by simpa using hinv⟩
        · exact ih s1 0 (by rw [hcount]) p hrest
      · rename_i hcross
        simp only [hcross, if_false] at hcount
        exact ih s1 (since_reset + 1) (by rw [hcount, hinv]; omega) p hp
    · simp at hp

/-- C9, evaluated on two runs from the initial state under a non-decreasing clock.
With frames at the clock values 0, 0, 1, 1, 2 the two recomputations use the frame
counts 2 and 1 while their windows hold 3 and 2 iterations; with one frame every
second each recomputation uses the frame count 0 for a window of one iteration,
and the value handed to the display is 0 on every frame. -/
theorem fps_numerator_misses_one_frame :
    fps_windows example_collaborators (initial_state 0) 0 two_window_ticks = [(2, 3), (1, 2)] ∧
    fps_windows example_collaborators (initial_state 0) 0 one_per_second
      = [(0, 1), (0, 1), (0, 1)] ∧
    displayed_fps (frame_loop example_collaborators (initial_state 0) one_per_second).1
      = [0, 0, 0] := by
  refine ⟨by decide, by decide, ?_⟩
  with_unfolding_all rfl

end FacePose
